import Mathlib

/-!
Verification of the ai-agent-orchestrator pipeline (shallow embedding).

The repository is a CLI that polls a "scanner" agent (named "Alpha") for
candidate tokens, asks the remaining "evaluator" agents to vote on each
candidate, and fires an on-chain swap when the votes pass a gate.  The
repository ships several variants of the same script:

* `src/index.js` — the chat action sends one message to every non-Alpha
  agent, tallies the replies with `decidor` (`text == "Yes"`), and trades
  when `count.yes >= 2`.
* `src/unnamed/part_001` — same shape, but `decidor` reads
  `response[i][0].text == "Yes."` and the gate is `count.yes == 2`.
* `src/unnamed/part_000` (first script) — the evaluation/gated-trade logic
  is commented out and `executeTrade` is called unconditionally after the
  scanner call.
* `src/unnamed/part_000` (second script) — long-running loop: the scanner
  reply yields `trending_tokens`, every token is sent to every evaluator,
  the per-agent verdict is `content.decision === "YES" || "Yes" || "yes"`,
  and the trade gate is `tokenResult.Bizyugo && tokenResult.Murad`.

JavaScript exceptions are made explicit: a computation that would throw a
`TypeError` (property access on `undefined`) is modelled as `Option.none`,
because every such throw in the chat actions propagates to the outer
`catch`, which calls `process.exit(1)`.  Missing object fields are
`Option.none` fields.
-/

namespace AgentOrch

/-- Vote counter returned by `decidor` (`{ yes, no }` in the source). -/
structure Count where
  yes : Nat
  no : Nat
deriving DecidableEq, Repr

/-- An element of the array passed to `decidor` in `src/index.js`
(`results.map(x => x.response[0])`): `none` is a `null`/`undefined`
element (accessing `.text` on it throws), `some t` is an object whose
`text` field is `t` (`none` when the field is missing or not a string,
in which case `text == "Yes"` is false). -/
abbrev DElem := Option (Option String)

/-- Loop body of `decidor` (`src/index.js` lines 138-155) with the running
counters.  `response[i].text == "Yes"` increments `yes`, anything else
increments `no`; a `null`/`undefined` element throws, the `catch` swallows
the exception and the function returns `undefined` (`none` here). -/
def decidorGo : List DElem → Count → Option Count
  | [], acc => some acc
  | none :: _, _ => none
  | some t :: rest, acc =>
    if t = some "Yes" then decidorGo rest ⟨acc.yes + 1, acc.no⟩
    else decidorGo rest ⟨acc.yes, acc.no + 1⟩

/-- `decidor` from `src/index.js`: counts `text == "Yes"` elements,
returning `undefined` (`none`) when an element is `null`/`undefined`. -/
def decidor (response : List DElem) : Option Count :=
  decidorGo response ⟨0, 0⟩

/-- Predicate for the elements `decidor` counts as a yes vote. -/
def isYesElem (e : DElem) : Bool :=
  e = some (some "Yes")

/-- One entry of a reply array (`{ text: ... }` objects produced by the
agent endpoints and read by `src/index.js` and `src/unnamed/part_001`). -/
structure TextItem where
  text : Option String
deriving DecidableEq, Repr

/-- Result of `sendToAgent` in `src/index.js` / `src/unnamed/part_001`:
on success the axios `response.data` array is stored in `response`; on a
transport error the object carries `success: false` and no `response`
field (`none`).  The `agent`/`tag` fields play no role in the tally and
are omitted. -/
structure AgentReply where
  success : Bool
  response : Option (List TextItem)
deriving DecidableEq, Repr

/-- The call-site expression `results.map((x) => x.response[0])` feeding
`decidor` in `src/index.js` (line 385).  If a reply has no `response`
field (a failed call), `x.response[0]` throws a `TypeError` and the whole
map aborts (`none`).  An empty `response` array contributes an
`undefined` element. -/
def mapResponseHeads : List AgentReply → Option (List DElem)
  | [] => some []
  | r :: rest =>
    match r.response with
    | none => none
    | some items =>
      match mapResponseHeads rest with
      | none => none
      | some es => some ((items.head?.map (fun it => it.text)) :: es)

/-- Tally step of the `chat` action in `src/index.js`: extract the reply
heads, then run `decidor`.  `none` means the computation threw. -/
def chatTally (results : List AgentReply) : Option Count :=
  match mapResponseHeads results with
  | none => none
  | some es => decidor es

/-- Trade gate of `src/index.js` (line 388): `count.yes >= 2`. -/
def tradeGate (c : Count) : Bool :=
  decide (2 ≤ c.yes)

/-- Trade gate of `src/unnamed/part_001` (line 366): `count.yes == 2`. -/
def tradeGateP1 (c : Count) : Bool :=
  c.yes == 2

/-- Full verdict of the `src/index.js` chat action for a list of evaluator
replies: `some b` when the tally is computed and the gate evaluates to
`b`; `none` when the computation throws (the action's `catch` then calls
`process.exit(1)` and no trade happens). -/
def chatDecision (results : List AgentReply) : Option Bool :=
  match chatTally results with
  | none => none
  | some c => some (tradeGate c)

/-- Loop body of `decidor` in `src/unnamed/part_001` (lines 138-155): the
input elements are whole `response` arrays (`results.map(x =>
x.response)`), and the check is `response[i][0].text == "Yes."`.  A
missing array (`none`, from a failed call) or an empty array makes the
indexing throw; the `catch` returns `undefined`. -/
def decidorP1Go : List (Option (List TextItem)) → Count → Option Count
  | [], acc => some acc
  | none :: _, _ => none
  | some [] :: _, _ => none
  | some (it :: _) :: rest, acc =>
    if it.text = some "Yes." then decidorP1Go rest ⟨acc.yes + 1, acc.no⟩
    else decidorP1Go rest ⟨acc.yes, acc.no + 1⟩

/-- `decidor` from `src/unnamed/part_001`. -/
def decidorP1 (response : List (Option (List TextItem))) : Option Count :=
  decidorP1Go response ⟨0, 0⟩

/-- Elements that make `decidorP1`'s loop throw: a missing response array
or an empty one. -/
def p1Throws : Option (List TextItem) → Bool
  | none => true
  | some [] => true
  | some (_ :: _) => false

/-- Elements `decidorP1` counts as a yes vote. -/
def p1YesElem : Option (List TextItem) → Bool
  | some (it :: _) => it.text = some "Yes."
  | _ => false

/-- Full verdict of the `src/unnamed/part_001` chat action. -/
def chatDecisionP1 (results : List AgentReply) : Option Bool :=
  match decidorP1 (results.map (fun r => r.response)) with
  | none => none
  | some c => some (tradeGateP1 c)

/-- A candidate token reported by the scanner in the second
`src/unnamed/part_000` script (`trending_tokens` records; `networkId` is
forwarded as the `chainId`). -/
structure Token where
  name : String
  symbol : String
  address : String
  decimals : Nat
  networkId : Nat
deriving DecidableEq, Repr

/-- The `content` object of a reply entry in the second
`src/unnamed/part_000` script: evaluator replies carry `decision` and
`reasoning`, the scanner reply carries `trending_tokens`. -/
structure Content where
  decision : Option String
  reasoning : Option String
  trending_tokens : Option (List Token)
deriving DecidableEq, Repr

/-- One entry of a reply array in the second `src/unnamed/part_000`
script (`{ content: ... }`). -/
structure ContentItem where
  content : Option Content
deriving DecidableEq, Repr

/-- Result of `sendToAgent` in the second `src/unnamed/part_000` script
(same shape as `AgentReply` but with `content`-carrying entries). -/
structure V2Reply where
  success : Bool
  response : Option (List ContentItem)
deriving DecidableEq, Repr

/-- The evaluator verdict check of the second `src/unnamed/part_000`
script (lines 894-897): `decision === "YES" || decision === "Yes" ||
decision === "yes"` — three exact casings, no case normalisation. -/
def decisionIsYes (d : Option String) : Bool :=
  d == some "YES" || d == some "Yes" || d == some "yes"

/-- Per-agent evaluation step of the second `src/unnamed/part_000` script
(lines 879-898).  `none`: the reply had no `response` array, so
`response.response.length` threw (the chat action's `catch` then exits).
`some none`: the guard rejected the reply (empty array or missing
`content`) and the loop continued without recording a vote.
`some (some b)`: the vote `b` was recorded for this agent. -/
def evalAgentStep (r : V2Reply) : Option (Option Bool) :=
  match r.response with
  | none => none
  | some [] => some none
  | some (item :: _) =>
    match item.content with
    | none => some none
    | some c => some (some (decisionIsYes c.decision))

/-- Whether a reply is recorded as an approval vote by `evalAgentStep`. -/
def approvalRecorded (r : V2Reply) : Bool :=
  evalAgentStep r == some (some true)

/-- Extraction of the candidate list from the scanner (Alpha) reply in
the second `src/unnamed/part_000` script (line 845):
`alphaResponse.response[0].content.trending_tokens`.  Any missing link in
the chain throws (`none`), which the outer `catch` turns into
`process.exit(1)`. -/
def scannerTokens (r : V2Reply) : Option (List Token) :=
  match r.response with
  | none => none
  | some [] => none
  | some (item :: _) =>
    match item.content with
    | none => none
    | some c => c.trending_tokens

/-- Stable descending insertion used to model
`.sort((a, b) => b.networkId - a.networkId)` (line 846): an element is
placed before the first element with a smaller-or-equal `networkId`. -/
def insertDesc (t : Token) : List Token → List Token
  | [] => [t]
  | s :: rest =>
    if s.networkId ≤ t.networkId then t :: s :: rest else s :: insertDesc t rest

/-- The scanner token list sorted descending by `networkId`. -/
def sortByNetworkIdDesc : List Token → List Token
  | [] => []
  | t :: rest => insertDesc t (sortByNetworkIdDesc rest)

/-- Inner evaluator loop for one token (lines 875-905): each agent is
called once; a reply without a `response` array throws after that call
(result `none`), a guard-rejected reply records no vote, otherwise the
vote is appended to `tokenResult`.  Returns the number of evaluator calls
made and the recorded votes (or `none` on a throw). -/
def processAgents (replies : String → V2Reply) :
    List String → Nat × Option (List (String × Bool))
  | [] => (0, some [])
  | a :: rest =>
    match evalAgentStep (replies a) with
    | none => (1, none)
    | some none =>
      let (n, v) := processAgents replies rest
      (n + 1, v)
    | some (some b) =>
      let (n, v) := processAgents replies rest
      (n + 1, v.map (fun vs => (a, b) :: vs))

/-- Reading `tokenResult[name]`: the last assignment wins, a never-written
name is `undefined` (falsy). -/
def getVote (votes : List (String × Bool)) (name : String) : Bool :=
  ((votes.reverse).lookup name).getD false

/-- The trade gate of the second `src/unnamed/part_000` script (line 908):
`tokenResult.Bizyugo && tokenResult.Murad`. -/
def muradGate (votes : List (String × Bool)) : Bool :=
  getVote votes "Bizyugo" && getVote votes "Murad"

/-- The per-token loop (lines 867-923): each token is evaluated by every
agent, and `executeTrade` fires when the gate passes.  Returns the number
of evaluator calls, the tokens for which `executeTrade` was invoked (in
order), and whether the loop threw (aborting the pass). -/
def processTokens (replies : Token → String → V2Reply) (agents : List String) :
    List Token → Nat × List Token × Bool
  | [] => (0, [], false)
  | t :: rest =>
    match processAgents (replies t) agents with
    | (n, none) => (n, [], true)
    | (n, some votes) =>
      let r := processTokens replies agents rest
      (n + r.1, if muradGate votes then t :: r.2.1 else r.2.1, r.2.2)

/-- What the driver does after one iteration of the `while (true)` loop:
either the `catch` handler ran `process.exit(1)`, or the loop sleeps a
fixed interval and re-polls the scanner. -/
inductive StepOutcome where
  | exits (code : Nat)
  | continues (sleepMs : Nat)
deriving DecidableEq, Repr

/-- Observable trace of one iteration of the long-running chat loop. -/
structure StepTrace where
  evaluatorCalls : Nat
  traded : List Token
  outcome : StepOutcome
deriving DecidableEq, Repr

/-- One iteration of the `while (true)` loop of the second
`src/unnamed/part_000` script (lines 836-926): poll the scanner, extract
and sort `trending_tokens`, run the per-token loop, then sleep 10000 ms.
Any throw reaches the `catch` at lines 927-930, which runs
`process.exit(1)`. -/
def chatLoopStep (scanner : V2Reply) (replies : Token → String → V2Reply)
    (agents : List String) : StepTrace :=
  match scannerTokens scanner with
  | none => ⟨0, [], .exits 1⟩
  | some tokens =>
    let r := processTokens replies agents (sortByNetworkIdDesc tokens)
    ⟨r.1, r.2.1, if r.2.2 then .exits 1 else .continues 10000⟩

/-- An agent descriptor parsed from one JSON file in the `agents`
directory. -/
structure Agent where
  name : String
  tag : String
  endpoint : String
  walletAddress : String
deriving DecidableEq, Repr

/-- What `JSON.parse` does to one agent file's content: throw a
`SyntaxError` (malformed JSON), produce the JSON literal `null`, or
produce an agent object. -/
inductive ParseOutcome where
  | throwsError
  | nullValue
  | parsed (a : Agent)
deriving DecidableEq, Repr

/-- Outcome of `loadAgents` (`src/index.js` lines 45-111; identical in the
other scripts).  Constructors mirror the `success: false` messages:
`errNoConfigs` = "No agent configurations found in the agents
directory.", `errNoValid` = "No valid agent configurations found.",
`errDirCreated` = "Agents directory created. Please add agent
configurations.", `errLoading` = "Error loading agents: ...". -/
inductive LoadResult where
  | ok (agents : List Agent)
  | errNoConfigs
  | errNoValid
  | errDirCreated
  | errLoading
deriving DecidableEq, Repr

/-- The agent a parse outcome contributes to the loaded list (`null`
entries are dropped by `agents.filter((agent) => agent !== null)`). -/
def ParseOutcome.toAgent : ParseOutcome → Option Agent
  | .parsed a => some a
  | _ => none

/-- Whether `JSON.parse` threw for this file. -/
def ParseOutcome.throws : ParseOutcome → Bool
  | .throwsError => true
  | _ => false

/-- `loadAgents`: the input is `none` when the `agents` directory is
absent (the `ENOENT` branch creates it and fails), otherwise the list of
per-file parse outcomes.  A single throwing `JSON.parse` rejects the
whole `Promise.all`, landing in the generic `catch` branch — the `filter`
for `null` entries only ever drops files whose content is the JSON
literal `null`. -/
def loadAgents : Option (List ParseOutcome) → LoadResult
  | none => .errDirCreated
  | some files =>
    if files.isEmpty then .errNoConfigs
    else if files.any ParseOutcome.throws then .errLoading
    else
      let validAgents := files.filterMap ParseOutcome.toAgent
      if validAgents.isEmpty then .errNoValid
      else .ok validAgents

/-- Number of `executeTrade` invocations made by the chat action of the
first `src/unnamed/part_000` script (lines 332-455): after `loadAgents`
succeeds and the Alpha agent is found, `executeTrade(result.agents, "",
0)` runs unconditionally (line 377) — the evaluator loop and the
`Bizyugo && Murad` gate are commented out. -/
def chatV1ExecuteTradeCalls (load : LoadResult) : Nat :=
  match load with
  | .ok agents =>
    if agents.isEmpty then 0
    else if agents.any (fun a => a.name == "Alpha") then 1 else 0
  | _ => 0

/-- ASCII lower-casing of one character. -/
def lowerChar (c : Char) : Char :=
  if 65 ≤ c.toNat ∧ c.toNat ≤ 90 then Char.ofNat (c.toNat + 32) else c

/-- ASCII lower-casing of a string (case normalisation). -/
def lowerAscii (s : String) : String :=
  String.mk (s.data.map lowerChar)

/-- Approval predicate in the spec's words (for comparison with the
code): a reply counts as an approval iff it succeeded and its `decision`
field, case-normalized, equals the affirmative token "yes". -/
def specApprovalPredicate (succeeded : Bool) (decision : Option String) : Bool :=
  succeeded && (decision.map lowerAscii == some "yes")

/-- A successful `src/index.js`-style reply voting yes. -/
def yesReply : AgentReply := ⟨true, some [⟨some "Yes"⟩]⟩

/-- A successful `src/index.js`-style reply voting no. -/
def noReply : AgentReply := ⟨true, some [⟨some "No"⟩]⟩

/-- A failed call: `success: false`, no `response` field. -/
def failedReply : AgentReply := ⟨false, none⟩

/-- A successful `src/unnamed/part_001`-style reply voting yes. -/
def p1YesReply : AgentReply := ⟨true, some [⟨some "Yes."⟩]⟩

/-- A successful part_000-v2-style evaluator reply voting yes. -/
def v2YesReply : V2Reply := ⟨true, some [⟨some ⟨some "Yes", some "looks good", none⟩⟩]⟩

/-- A failed part_000-v2-style call. -/
def v2FailedReply : V2Reply := ⟨false, none⟩

/-- A succeeded part_000-v2-style reply whose decision is the casing
"yEs". -/
def yEsReply : V2Reply := ⟨true, some [⟨some ⟨some "yEs", none, none⟩⟩]⟩

/-- A concrete candidate token. -/
def sampleToken : Token := ⟨"Foo Token", "FOO", "0xf00", 18, 8453⟩

/-- Evaluator replies that always vote yes. -/
def allYesReplies : Token → String → V2Reply := fun _ _ => v2YesReply

/-- A scanner reply listing the same candidate twice. -/
def dupScanner : V2Reply :=
  ⟨true, some [⟨some ⟨none, none, some [sampleToken, sampleToken]⟩⟩]⟩

/-- A concrete Alpha agent descriptor. -/
def alphaAgent : Agent := ⟨"Alpha", "scanner", "http://localhost:3000", "0xa1"⟩

/-! ## Helper lemmas about `decidor` -/

/-- A `null`/`undefined` element makes `decidor`'s loop throw, so the
function returns `undefined`. -/
theorem decidorGo_of_mem_none {l : List DElem} (h : none ∈ l) (acc : Count) :
    decidorGo l acc = none := by
  induction l generalizing acc with
  | nil => cases h
  | cons e rest ih =>
    cases e with
    | none => rfl
    | some t =>
      have hmem : none ∈ rest := by
        cases h with
        | tail _ h' => exact h'
      by_cases hy : t = some "Yes" <;> simp [decidorGo, hy, ih hmem]

/-- On a list without `null` elements, `decidor`'s loop completes and adds
the `text == "Yes"` count to `yes` and the rest of the list to `no`. -/
theorem decidorGo_closed {l : List DElem} (h : ∀ e ∈ l, e ≠ none)
    (acc : Count) :
    decidorGo l acc =
      some ⟨acc.yes + l.countP isYesElem,
            acc.no + l.countP (fun e => !isYesElem e)⟩ := by
  induction l generalizing acc with
  | nil => simp [decidorGo]
  | cons e rest ih =>
    have hrest : ∀ x ∈ rest, x ≠ none := fun x hx => h x (List.mem_cons_of_mem _ hx)
    cases e with
    | none => exact absurd rfl (h none (List.mem_cons_self _ _))
    | some t =>
      by_cases hy : t = some "Yes"
      · have hyes : isYesElem (some t) = true := by simp [isYesElem, hy]
        rw [decidorGo, if_pos hy, ih hrest]
        simp [List.countP_cons, hyes, Nat.add_comm, Nat.add_assoc, Nat.add_left_comm]
      · have hyes : isYesElem (some t) = false := by
          simp only [isYesElem, decide_eq_false_iff_not]
          intro hcon
          exact hy (Option.some.injEq t (some "Yes") ▸ hcon)
        rw [decidorGo, if_neg hy, ih hrest]
        simp [List.countP_cons, hyes, Nat.add_comm, Nat.add_assoc, Nat.add_left_comm]

/-- Whenever `decidor`'s loop returns a count, the total grew by exactly
the length of the list: every element increments exactly one counter. -/
theorem decidorGo_sum {l : List DElem} {acc c : Count}
    (h : decidorGo l acc = some c) :
    c.yes + c.no = acc.yes + acc.no + l.length := by
  induction l generalizing acc with
  | nil =>
    simp only [decidorGo, Option.some.injEq] at h
    subst h
    simp
  | cons e rest ih =>
    cases e with
    | none => simp [decidorGo] at h
    | some t =>
      by_cases hy : t = some "Yes"
      · rw [decidorGo, if_pos hy] at h
        have := ih h
        dsimp only at this
        simp only [List.length_cons]
        omega
      · rw [decidorGo, if_neg hy] at h
        have := ih h
        dsimp only at this
        simp only [List.length_cons]
        omega

/-- Whenever `decidor`'s loop returns a count, `yes` grew by exactly the
number of `text == "Yes"` elements: no other element is counted as a
yes. -/
theorem decidorGo_yes {l : List DElem} {acc c : Count}
    (h : decidorGo l acc = some c) :
    c.yes = acc.yes + l.countP isYesElem := by
  induction l generalizing acc with
  | nil =>
    simp only [decidorGo, Option.some.injEq] at h
    subst h
    simp
  | cons e rest ih =>
    cases e with
    | none => simp [decidorGo] at h
    | some t =>
      by_cases hy : t = some "Yes"
      · have hyes : isYesElem (some t) = true := by simp [isYesElem, hy]
        rw [decidorGo, if_pos hy] at h
        have := ih h
        dsimp only at this
        simp [List.countP_cons, hyes]
        omega
      · have hyes : isYesElem (some t) = false := by
          simp only [isYesElem, decide_eq_false_iff_not]
          intro hcon
          exact hy (Option.some.injEq t (some "Yes") ▸ hcon)
        rw [decidorGo, if_neg hy] at h
        have := ih h
        dsimp only at this
        simp [List.countP_cons, hyes]
        omega

/-! ## Claim C6 -/

/-- C6: for every tally computation over any list of evaluator replies,
`approvals <= total` holds (`yes <= yes + no`, with `yes + no` equal to
the number of replies iterated), and a candidate with zero evaluator
replies yields `approvals = 0`. -/
theorem decidor_approvals_le_total :
    (∀ (l : List DElem) (c : Count), decidor l = some c →
      c.yes ≤ c.yes + c.no ∧ c.yes + c.no = l.length) ∧
    decidor [] = some ⟨0, 0⟩ := by
  refine ⟨?_, rfl⟩
  intro l c h
  have hsum := decidorGo_sum h
  simp only [Nat.zero_add] at hsum
  exact ⟨Nat.le_add_right _ _, by omega⟩

/-- C6 witness: a concrete tally (one yes, one no) satisfies the bound. -/
theorem decidor_approvals_le_total_witness :
    decidor [some (some "Yes"), some (some "No")] = some ⟨1, 1⟩ ∧
    1 ≤ 1 + 1 ∧ 1 + 1 = 2 := by
  refine ⟨by decide, ?_, rfl⟩
  exact (decidor_approvals_le_total.1
    [some (some "Yes"), some (some "No")] ⟨1, 1⟩ (by decide)).1

/-! ## Helper lemmas about `decidorP1` and permutations -/

/-- A permutation preserves `List.any`. -/
theorem perm_any_eq {α : Type} {l₁ l₂ : List α} (p : α → Bool)
    (h : l₁.Perm l₂) : l₁.any p = l₂.any p := by
  cases ha : l₂.any p with
  | true =>
    rw [List.any_eq_true] at ha ⊢
    obtain ⟨x, hx, hp⟩ := ha
    exact ⟨x, h.mem_iff.mpr hx, hp⟩
  | false =>
    rw [List.any_eq_false] at ha ⊢
    intro x hx
    exact ha x (h.mem_iff.mp hx)

/-- An element on which `p1Throws` holds makes `decidorP1`'s loop throw. -/
theorem decidorP1Go_of_throws {l : List (Option (List TextItem))}
    (h : l.any p1Throws = true) (acc : Count) :
    decidorP1Go l acc = none := by
  induction l generalizing acc with
  | nil => simp at h
  | cons e rest ih =>
    match e with
    | none => rfl
    | some [] => rfl
    | some (it :: its) =>
      have hrest : rest.any p1Throws = true := by
        simpa [p1Throws] using h
      by_cases hy : it.text = some "Yes." <;>
        simp [decidorP1Go, hy, ih hrest]

/-- On a list without throwing elements, `decidorP1`'s loop completes and
adds the `"Yes."` count to `yes` and the rest of the list to `no`. -/
theorem decidorP1Go_closed {l : List (Option (List TextItem))}
    (h : l.any p1Throws = false) (acc : Count) :
    decidorP1Go l acc =
      some ⟨acc.yes + l.countP p1YesElem,
            acc.no + l.countP (fun e => !p1YesElem e)⟩ := by
  induction l generalizing acc with
  | nil => simp [decidorP1Go]
  | cons e rest ih =>
    rw [List.any_cons, Bool.or_eq_false_iff] at h
    obtain ⟨he, hrest⟩ := h
    match e with
    | none => simp [p1Throws] at he
    | some [] => simp [p1Throws] at he
    | some (it :: its) =>
      by_cases hy : it.text = some "Yes."
      · have hyes : p1YesElem (some (it :: its)) = true := by
          simp [p1YesElem, hy]
        rw [decidorP1Go, if_pos hy, ih hrest]
        simp [List.countP_cons, hyes, Nat.add_comm, Nat.add_assoc,
          Nat.add_left_comm]
      · have hyes : p1YesElem (some (it :: its)) = false := by
          simp [p1YesElem]
          intro hcon
          exact absurd hcon hy
        rw [decidorP1Go, if_neg hy, ih hrest]
        simp [List.countP_cons, hyes, Nat.add_comm, Nat.add_assoc,
          Nat.add_left_comm]

/-! ## Claim C7 -/

/-- C7: the tally is order-independent — for every list of replies and
every permutation of it, `decidor` (src/index.js) and `decidorP1`
(src/unnamed/part_001) compute identical results. -/
theorem decidor_order_independent :
    (∀ l₁ l₂ : List DElem, l₁.Perm l₂ → decidor l₁ = decidor l₂) ∧
    (∀ m₁ m₂ : List (Option (List TextItem)), m₁.Perm m₂ →
      decidorP1 m₁ = decidorP1 m₂) := by
  constructor
  · intro l₁ l₂ h
    by_cases hn : none ∈ l₁
    · rw [decidor, decidorGo_of_mem_none hn, decidor,
        decidorGo_of_mem_none (h.mem_iff.mp hn)]
    · have hn₂ : none ∉ l₂ := fun hc => hn (h.mem_iff.mpr hc)
      have h₁ : ∀ e ∈ l₁, e ≠ none := fun e he hc => hn (hc ▸ he)
      have h₂ : ∀ e ∈ l₂, e ≠ none := fun e he hc => hn₂ (hc ▸ he)
      rw [decidor, decidorGo_closed h₁, decidor, decidorGo_closed h₂,
        h.countP_eq, h.countP_eq]
  · intro m₁ m₂ h
    cases ht : m₁.any p1Throws with
    | true =>
      rw [decidorP1, decidorP1Go_of_throws ht, decidorP1,
        decidorP1Go_of_throws ((perm_any_eq p1Throws h) ▸ ht)]
    | false =>
      rw [decidorP1, decidorP1Go_closed ht, decidorP1,
        decidorP1Go_closed ((perm_any_eq p1Throws h) ▸ ht),
        h.countP_eq, h.countP_eq]

/-- C7 witness: concrete two-element lists and their swaps tally
identically. -/
theorem decidor_order_independent_witness :
    decidor [some (some "Yes"), some (some "No")]
      = decidor [some (some "No"), some (some "Yes")] ∧
    decidorP1 [some [⟨some "Yes."⟩], none]
      = decidorP1 [none, some [⟨some "Yes."⟩]] := by
  constructor
  · exact decidor_order_independent.1 _ _
      (List.Perm.swap (some (some "No")) (some (some "Yes")) [])
  · exact decidor_order_independent.2 _ _
      (List.Perm.swap none (some [(⟨some "Yes."⟩ : TextItem)]) [])

/-! ## Claim C1 -/

/-- C1 counterexample: the claim "the Trade Gate's verdict satisfies
`approved = (tally.approvals >= quorum)`, and `[approve, Failed]` yields
`approved = false`" is false on the code.  In `src/unnamed/part_001`
three approving replies (3 ≥ 2 = quorum) yield `approved = false`,
because the gate is `count.yes == 2`; and in `src/index.js` the reply
list `[approve, Failed]` makes the tally computation throw (`none`), so
no verdict `false` is ever produced — the chat action aborts. -/
theorem quorum_gate_counterexample :
    chatDecisionP1 [p1YesReply, p1YesReply, p1YesReply] = some false ∧
    2 ≤ 3 ∧
    chatDecision [yesReply, failedReply] = none := by
  refine ⟨by decide, by decide, by decide⟩

/-- C1 amended: in `src/index.js` the gate is `count.yes >= 2`, so
`[approve, approve]` yields `true` and `[approve, reject]` yields
`false`; a `Failed` reply makes the tally computation throw, so the chat
action aborts with no verdict (and no trade) instead of yielding
`approved = false`; and in `src/unnamed/part_001` the gate is
`count.yes == 2`, not `count.yes >= quorum`. -/
theorem quorum_gate_amended :
    (∀ c : Count, tradeGate c = true ↔ 2 ≤ c.yes) ∧
    chatDecision [yesReply, yesReply] = some true ∧
    chatDecision [yesReply, noReply] = some false ∧
    chatDecision [yesReply, failedReply] = none ∧
    (∀ c : Count, tradeGateP1 c = true ↔ c.yes = 2) := by
  refine ⟨?_, by decide, by decide, by decide, ?_⟩
  · intro c
    simp [tradeGate]
  · intro c
    simp [tradeGateP1]

/-- C1 amended witness: the `>= 2` gate fires at a concrete count of two
approvals and the `== 2` gate refuses a concrete count of three. -/
theorem quorum_gate_amended_witness :
    tradeGate ⟨2, 0⟩ = true ∧ tradeGateP1 ⟨3, 0⟩ ≠ true := by
  constructor
  · exact (quorum_gate_amended.1 ⟨2, 0⟩).mpr (by decide)
  · intro hc
    have := (quorum_gate_amended.2.2.2.2 ⟨3, 0⟩).mp hc
    simp at this

/-! ## Claim C5 -/

/-- A failed reply (no `response` field) makes the reply-head extraction
`results.map((x) => x.response[0])` throw. -/
theorem mapResponseHeads_of_failed {results : List AgentReply}
    {r : AgentReply} (hmem : r ∈ results) (hr : r.response = none) :
    mapResponseHeads results = none := by
  induction results with
  | nil => cases hmem
  | cons x rest ih =>
    cases hmem with
    | head =>
      simp [mapResponseHeads, hr]
    | tail _ h' =>
      rw [mapResponseHeads]
      cases hx : x.response with
      | none => rfl
      | some items => rw [ih h']

/-- C5 counterexample: the claim "for every list of replies, including
Failed replies, computing the tally does not raise and yields a
well-defined Tally" is false on the code.  With a Failed reply,
`results.map((x) => x.response[0])` throws a `TypeError` before `decidor`
runs (`chatTally = none`); and a `null` reply element makes `decidor`
return `undefined` rather than a Tally. -/
theorem tally_totality_counterexample :
    chatTally [yesReply, failedReply] = none ∧
    decidor [none] = none := by
  exact ⟨by decide, by decide⟩

/-- C5 amended: `decidor` itself never counts a Failed or malformed
element as an approval — whenever it returns a Tally, `yes` is exactly
the number of `text == "Yes"` elements; but a Failed reply makes the
chat action's reply-head extraction throw before `decidor` runs, and a
`null` element makes `decidor` return `undefined` instead of a Tally
(the caller then throws on `count.yes`). -/
theorem tally_totality_amended :
    (∀ (l : List DElem) (c : Count), decidor l = some c →
      c.yes = l.countP isYesElem) ∧
    (∀ results : List AgentReply,
      (∃ r ∈ results, r.response = none) → chatTally results = none) ∧
    (∀ l : List DElem, none ∈ l → decidor l = none) := by
  refine ⟨?_, ?_, ?_⟩
  · intro l c h
    simpa using decidorGo_yes h
  · intro results ⟨r, hmem, hr⟩
    rw [chatTally, mapResponseHeads_of_failed hmem hr]
  · intro l h
    exact decidorGo_of_mem_none h ⟨0, 0⟩

/-- C5 amended witness: concrete instances of all three conjuncts. -/
theorem tally_totality_amended_witness :
    ((⟨1, 0⟩ : Count).yes = [some (some "Yes")].countP isYesElem) ∧
    chatTally [failedReply] = none ∧
    decidor [none, some (some "Yes")] = none := by
  refine ⟨?_, ?_, ?_⟩
  · exact tally_totality_amended.1 [some (some "Yes")] ⟨1, 0⟩ (by decide)
  · exact tally_totality_amended.2.1 [failedReply]
      ⟨failedReply, List.mem_singleton.mpr rfl, rfl⟩
  · exact tally_totality_amended.2.2 [none, some (some "Yes")]
      (List.mem_cons_self _ _)

/-! ## Claim C2 -/

/-- C2: in the chat action of the first `src/unnamed/part_000` script,
once `loadAgents` succeeds with an Alpha agent present, `executeTrade` is
invoked exactly once — unconditionally, with the tally/gate logic
commented out — even though no evaluator has approved anything (the
zero-approval gate is `false`). -/
theorem unconditional_trade_codebug :
    chatV1ExecuteTradeCalls (loadAgents (some [ParseOutcome.parsed alphaAgent])) = 1 ∧
    tradeGate ⟨0, 0⟩ = false := by
  exact ⟨by decide, by decide⟩

/-! ## Helper lemmas for the per-token loop -/

/-- The tokens traded by the per-token loop form a sublist of the token
list: each entry fires `executeTrade` at most once. -/
theorem processTokens_traded_sublist (replies : Token → String → V2Reply)
    (agents : List String) :
    ∀ ts : List Token, ((processTokens replies agents ts).2.1).Sublist ts := by
  intro ts
  induction ts with
  | nil => simp [processTokens]
  | cons t rest ih =>
    rw [processTokens]
    cases hpa : processAgents (replies t) agents with
    | mk n v =>
      cases v with
      | none => exact List.nil_sublist _
      | some votes =>
        dsimp only
        by_cases hg : muradGate votes = true
        · rw [if_pos hg]
          exact ih.cons₂ t
        · rw [if_neg hg]
          exact ih.cons t

/-- Inserting into the descending-sorted list permutes consing. -/
theorem insertDesc_perm (t : Token) :
    ∀ l : List Token, (insertDesc t l).Perm (t :: l)
  | [] => List.Perm.refl _
  | s :: rest => by
    rw [insertDesc]
    by_cases h : s.networkId ≤ t.networkId
    · rw [if_pos h]
    · rw [if_neg h]
      exact ((insertDesc_perm t rest).cons s).trans (List.Perm.swap t s rest)

/-- The descending sort permutes its input. -/
theorem sortByNetworkIdDesc_perm :
    ∀ l : List Token, (sortByNetworkIdDesc l).Perm l
  | [] => List.Perm.refl _
  | t :: rest =>
    (insertDesc_perm t _).trans ((sortByNetworkIdDesc_perm rest).cons t)

/-! ## Claim C3 -/

/-- C3 counterexample: the claim "at-most-once trade execution per
candidate per pass" is false on the code — there is no decision cache,
so when the scanner lists the same candidate twice in one pass (with
approving evaluators), `executeTrade` is invoked twice for it. -/
theorem trade_at_most_once_counterexample :
    ((chatLoopStep dupScanner allYesReplies ["Bizyugo", "Murad"]).traded).count
      sampleToken = 2 := by
  decide

/-- C3 amended: the per-token loop fires `executeTrade` at most once per
entry of the scanner's candidate list — so a candidate is traded at most
as many times as it occurs in the list (once if listed once), but
nothing deduplicates repeated occurrences within a pass. -/
theorem trade_per_entry_amended :
    ∀ (scanner : V2Reply) (replies : Token → String → V2Reply)
      (agents : List String) (ts : List Token) (c : Token),
    scannerTokens scanner = some ts →
    ((chatLoopStep scanner replies agents).traded).count c ≤ ts.count c := by
  intro s rep ag ts c h
  have hgoal : (chatLoopStep s rep ag).traded
      = (processTokens rep ag (sortByNetworkIdDesc ts)).2.1 := by
    rw [chatLoopStep, h]
  rw [hgoal]
  calc (processTokens rep ag (sortByNetworkIdDesc ts)).2.1.count c
      ≤ (sortByNetworkIdDesc ts).count c :=
        (processTokens_traded_sublist rep ag (sortByNetworkIdDesc ts)).count_le c
    _ = ts.count c := (sortByNetworkIdDesc_perm ts).count_eq c

/-- C3 amended witness: on the duplicated-candidate pass, the trade count
for the candidate is bounded by its number of occurrences (two). -/
theorem trade_per_entry_amended_witness :
    scannerTokens dupScanner = some [sampleToken, sampleToken] ∧
    ((chatLoopStep dupScanner allYesReplies ["Bizyugo", "Murad"]).traded).count
      sampleToken ≤ [sampleToken, sampleToken].count sampleToken := by
  refine ⟨by decide, ?_⟩
  exact trade_per_entry_amended dupScanner allYesReplies ["Bizyugo", "Murad"]
    [sampleToken, sampleToken] sampleToken (by decide)

/-! ## Claim C4 -/

/-- C4 counterexample: the claim "a reply counts as an approval iff it
succeeded and its `decision`, case-normalized, equals `yes`" is false on
the code.  A succeeded reply with decision `"yEs"` satisfies the spec's
case-normalized predicate, but the code's check
`decision === "YES" || "Yes" || "yes"` records it as a non-approval. -/
theorem approval_predicate_counterexample :
    specApprovalPredicate true (some "yEs") = true ∧
    evalAgentStep yEsReply = some (some false) ∧
    approvalRecorded yEsReply = false := by
  exact ⟨by decide, by decide, by decide⟩

/-- C4 amended: a reply is recorded as an approval iff it passed the
guard (non-empty `response` whose head carries a `content` object) and
its `decision` is exactly one of the three casings `"YES"`, `"Yes"`,
`"yes"`; every other token or casing, a missing field, and a failed call
(which throws at the guard) yield no approval. -/
theorem approval_predicate_amended (r : V2Reply) :
    approvalRecorded r = true ↔
      ∃ (items : List ContentItem) (item : ContentItem) (c : Content),
        r.response = some (item :: items) ∧ item.content = some c ∧
        (c.decision = some "YES" ∨ c.decision = some "Yes" ∨
          c.decision = some "yes") := by
  rw [approvalRecorded]
  cases hresp : r.response with
  | none => simp [evalAgentStep, hresp]
  | some items0 =>
    cases items0 with
    | nil => simp [evalAgentStep, hresp]
    | cons item its =>
      cases hc : item.content with
      | none => simp [evalAgentStep, hresp, hc]
      | some c =>
        simp [evalAgentStep, hresp, hc, decisionIsYes]
        constructor
        · intro hd
          exact ⟨its, item, ⟨rfl, rfl⟩, c, hc, by tauto⟩
        · rintro ⟨items, item1, ⟨hi, hits⟩, x, hx, hpx⟩
          subst hi
          rw [hc] at hx
          injection hx with hcx
          subst hcx
          tauto

/-- C4 amended witness: the exact casing `"Yes"` is recorded as an
approval. -/
theorem approval_predicate_amended_witness :
    approvalRecorded v2YesReply = true :=
  (approval_predicate_amended v2YesReply).mpr
    ⟨[], ⟨some ⟨some "Yes", some "looks good", none⟩⟩,
      ⟨some "Yes", some "looks good", none⟩, rfl, rfl, Or.inr (Or.inl rfl)⟩

/-! ## Claim C8 -/

/-- C8: a single malformed entry is fatal to `loadAgents`, contrary to
the claim.  With one valid agent file and one file on which `JSON.parse`
throws, the whole `Promise.all` rejects and `loadAgents` returns the
generic loading error — not success with the valid entry.  The
`null`-filter skip path only applies to files whose content parses to
the JSON literal `null`; the distinct "no valid configurations" failure
is reserved for that case, while any parse throw — even with valid
entries present — lands in the generic error. -/
theorem load_agents_codebug :
    loadAgents (some [ParseOutcome.parsed alphaAgent, ParseOutcome.throwsError])
      = LoadResult.errLoading ∧
    loadAgents (some [ParseOutcome.parsed alphaAgent, ParseOutcome.throwsError])
      ≠ LoadResult.ok [alphaAgent] ∧
    loadAgents (some [ParseOutcome.parsed alphaAgent, ParseOutcome.nullValue])
      = LoadResult.ok [alphaAgent] ∧
    loadAgents (some [ParseOutcome.throwsError]) = LoadResult.errLoading := by
  exact ⟨by decide, by decide, by decide, by decide⟩

/-! ## Claim C9 -/

/-- C9 counterexample: the claim "in long-running mode the driver waits a
fixed backoff interval and then retries rather than terminating" is
false on the code.  A failed scanner call makes
`alphaResponse.response[0]` throw; the `catch` at the bottom of the chat
action runs `process.exit(1)` — the loop iteration ends in `exits 1`,
with zero evaluator calls and no retry. -/
theorem scanner_failure_counterexample :
    chatLoopStep v2FailedReply allYesReplies ["Bizyugo", "Murad"]
      = ⟨0, [], StepOutcome.exits 1⟩ := by
  decide

/-- C9 amended: whenever the scanner reply does not yield a token list
(failed call or malformed reply), the pass aborts immediately — zero
evaluator calls, no trades — and the process terminates with exit code
1; only a pass that completes sleeps and loops again. -/
theorem scanner_failure_amended :
    ∀ (scanner : V2Reply) (replies : Token → String → V2Reply)
      (agents : List String),
    scannerTokens scanner = none →
    chatLoopStep scanner replies agents = ⟨0, [], StepOutcome.exits 1⟩ := by
  intro s r a h
  rw [chatLoopStep, h]

/-- C9 amended witness: the concrete failed scanner reply aborts the
pass with an exit. -/
theorem scanner_failure_amended_witness :
    scannerTokens v2FailedReply = none ∧
    chatLoopStep v2FailedReply allYesReplies ["Bizyugo", "Murad"]
      = ⟨0, [], StepOutcome.exits 1⟩ :=
  ⟨rfl, scanner_failure_amended v2FailedReply allYesReplies
    ["Bizyugo", "Murad"] rfl⟩

end AgentOrch
